import Mathlib

/-!
Verification of the Nextstepjobs ingestion/structuring pipeline.

Shallow embedding of the Python source under `src/`:

* `src/Nextstepjobs/scrapers/myjobmag.py` and `src/scrapers/db.py`
  (SQLite stub store: `INSERT OR IGNORE` keyed on `full_link`,
  `Database.batch_insert`, `JobScraper.scrape`).
* `src/scrapers/utils.py` (`get_session`) and
  `src/scrapers/base_scraper.py` (`BaseScraper.fetch_page`).
* `src/processors/pipeline2.py` (`JobProcessor._parse_salary`,
  `_extract_company` / `_extract_location` / `_extract_job_type` /
  `_extract_industry`, `_calculate_quality_score`,
  `AcademicDetailsProcessor._store_job_data`, `get_unprocessed_jobs`).
* `src/processors/educ_process.py` (`AcademicDetailsProcessor`
  `_post_process_results`, `_normalize_field_name`, `_preprocess_text`,
  `extract_academic_details`).

Conventions: Python `float` values are modelled as `ℚ` (the constants in
play are decimal literals and the code only adds/compares them); SQLite
rows are Lean structures and keyed tables are functions `Nat → Option row`
(primary key) or `Nat → List row` (one-to-many); HTML/BeautifulSoup
selector lookup and Python `re` searches over free-form text are modelled
as oracles `String → Option String` (selector/pattern text ↦ matched
text), while text operations the code performs itself (lower-casing,
substring tests, digit-run extraction, trimming) are implemented directly.
-/

/-! ### Shared string helpers (Python `str` operations used by the code) -/

/-- Does the second list occur as a contiguous sublist of the first? -/
def listInfix (needle : List Char) : List Char → Bool
  | [] => needle.isEmpty
  | c :: cs => needle.isPrefixOf (c :: cs) || listInfix needle cs

/-- Python `needle in hay` on strings. -/
def strContains (hay needle : String) : Bool :=
  listInfix needle.data hay.data

/-- Python `c in s` for a single character. -/
def charIn (hay : String) (c : Char) : Bool :=
  hay.data.contains c

/-- Python `str.lower()` (ASCII case), computed on the character list. -/
def strLower (s : String) : String :=
  ⟨s.data.map Char.toLower⟩

/-- A word character in the sense of Python regex `\w` (ASCII case). -/
def isWordChar (c : Char) : Bool :=
  c.isAlphanum || c = '_'

/-- Python `str.title()` (ASCII case): upper-case every letter that does not
follow a letter, lower-case the other letters. -/
def pyTitleGo : List Char → Bool → List Char
  | [], _ => []
  | c :: cs, prevAlpha =>
    (if c.isAlpha then (if prevAlpha then c.toLower else c.toUpper) else c)
      :: pyTitleGo cs c.isAlpha

/-- Python `str.title()` (ASCII case). -/
def pyTitle (s : String) : String :=
  ⟨pyTitleGo s.data false⟩

/-! ### DedupStore: `Database` of `src/Nextstepjobs/scrapers/myjobmag.py`
(lines 25-69) and, identically, `Database` of `src/scrapers/db.py`.

The table `jobs_data (id INTEGER PRIMARY KEY AUTOINCREMENT, full_link TEXT
UNIQUE, title TEXT, content TEXT)` is a list of rows plus the autoincrement
counter; `INSERT OR IGNORE` keyed on the UNIQUE column `full_link` is the
standard SQLite semantics: the insert is dropped (rowcount 0) when a row
with the same `full_link` already exists. -/

/-- `JobListing` dataclass of myjobmag.py (title, full_link, content). -/
structure JobListing where
  title : String
  full_link : String
  content : String
deriving DecidableEq, Repr

/-- One stored row of the `jobs_data` table. -/
structure DbRow where
  id : Nat
  full_link : String
  title : String
  content : String
deriving DecidableEq, Repr

/-- The `jobs_data` table with its AUTOINCREMENT counter. -/
structure JobsTable where
  rows : List DbRow
  next_id : Nat
deriving DecidableEq, Repr

/-- The `full_link` column of the table. -/
def linksOf (t : JobsTable) : List String :=
  t.rows.map (·.full_link)

/-- `INSERT OR IGNORE INTO jobs_data (title, full_link, content)` for a
single row; returns the updated table and the cursor rowcount (1 when
inserted, 0 when ignored because `full_link` is already present). -/
def insert_or_ignore (t : JobsTable) (title link content : String) :
    JobsTable × Nat :=
  if t.rows.any (fun r => r.full_link = link) then (t, 0)
  else (⟨t.rows ++ [⟨t.next_id, link, title, content⟩], t.next_id + 1⟩, 1)

/-- One iteration of the `batch_insert` loop: insert the job, accumulate
the rowcount. -/
def batchStep (acc : JobsTable × Nat) (j : JobListing) : JobsTable × Nat :=
  let r := insert_or_ignore acc.1 j.title j.full_link j.content
  (r.1, acc.2 + r.2)

/-- `Database.batch_insert` (myjobmag.py lines 52-69): insert-or-ignore each
job in order, counting the rows actually inserted. -/
def batch_insert (t : JobsTable) (jobs : List JobListing) : JobsTable × Nat :=
  jobs.foldl batchStep (t, 0)

/-- The empty `jobs_data` table (fresh database). -/
def emptyTable : JobsTable := ⟨[], 1⟩

/-! ### SourceAdapter / orchestration: `JobScraper` of
`src/Nextstepjobs/scrapers/myjobmag.py` (lines 93-186).

`fetch_job_listings` (HTTP GET + BeautifulSoup card parsing) is modelled as
an oracle `fetchListings : Nat → List JobListing` from page number to the
listings parsed from that page; a page answering with a non-success status
yields `[]` (the code returns `[]` when `client.get` fails). `process_job`'s
detail fetch plus `parse_job_content` is the oracle
`fetchContent : String → Option String` from `full_link` to parsed content
(`none` = fetch failed). The thread pool is modelled with completion order
equal to submission order; `as_completed` batching inserts completed jobs
in groups of `batch_size` with the remainder last, which `chunksOf`
reproduces. -/

/-- `JobScraper.process_job`: attach fetched content when the detail fetch
succeeds, return the listing unchanged otherwise. -/
def process_job (fetchContent : String → Option String) (j : JobListing) :
    JobListing :=
  match fetchContent j.full_link with
  | some c => { j with content := c }
  | none => j

/-- The `completed_jobs` accumulation of the `as_completed` loop: each
finished job is appended (`cur` holds the current group in reverse), the
group is flushed once `len(completed_jobs) >= batch_size`, and the
remainder is flushed after the loop. -/
def chunksGo (batch_size : Nat) (cur : List α) : List α → List (List α)
  | [] => if cur.isEmpty then [] else [cur.reverse]
  | x :: xs =>
    let cur' := x :: cur
    if batch_size ≤ cur'.length then cur'.reverse :: chunksGo batch_size [] xs
    else chunksGo batch_size cur' xs

/-- The groups in which a list of completed jobs reaches `batch_insert`. -/
def chunksOf (batch_size : Nat) (l : List α) : List (List α) :=
  chunksGo batch_size [] l

/-- One iteration of the `for page in range(start_page, end_page + 1)` loop
of `JobScraper.scrape`: fetch the page's listings (counted as one page
fetch), skip the page if empty, otherwise process every job and batch-insert
the completed jobs. -/
def scrapePageStep (fetchListings : Nat → List JobListing)
    (fetchContent : String → Option String) (batch_size : Nat)
    (acc : Nat × JobsTable) (page : Nat) : Nat × JobsTable :=
  let listings := fetchListings page
  if listings.isEmpty then (acc.1 + 1, acc.2)
  else
    let completed := listings.map (process_job fetchContent)
    let db := (chunksOf batch_size completed).foldl
      (fun d c => (batch_insert d c).1) acc.2
    (acc.1 + 1, db)

/-- `JobScraper.scrape` (myjobmag.py lines 142-186): iterate pages
`start_page .. end_page`, returning (number of listing pages fetched, final
`jobs_data` table). -/
def scrape (fetchListings : Nat → List JobListing)
    (fetchContent : String → Option String)
    (start_page end_page batch_size : Nat) (db : JobsTable) :
    Nat × JobsTable :=
  (List.range' start_page (end_page + 1 - start_page)).foldl
    (scrapePageStep fetchListings fetchContent batch_size) (0, db)

/-- Mocked source for the pagination scenario of the spec: page 1 yields ten
distinct listing stubs, every other page yields zero listings. -/
def mockListings : Nat → List JobListing := fun p =>
  if p = 1 then
    (List.range 10).map
      (fun i => ⟨"t" ++ toString i, "l" ++ toString i, ""⟩)
  else []

/-- Mocked detail fetch: every detail page parses to "c". -/
def mockContent : String → Option String := fun _ => some "c"

/-! ### RateLimitedClient.

Two fetch layers exist in the source. `get_session`
(`src/scrapers/utils.py` lines 17-30) configures a `requests` session with
`Retry(total=3, backoff_factor=0.3, status_forcelist=[500,502,503,504])`;
`session_get_go` models that retry machinery as configured: a response
whose status is in the forcelist is retried while retries remain, sleeping
`urllib_backoff` first (0 before the first retry, then
`backoff_factor * 2 ^ (errors - 1)`). `BaseScraper.fetch_page`
(`src/scrapers/base_scraper.py` lines 74-101) is the repository's own
retry loop over `range(retries)`: status 200 returns the body, status 429
sleeps `2 ** attempt` and retries, any other status retries with no sleep,
and exhausting the loop returns `None`. The response to attempt `i` is the
oracle `resps i`; traces record the number of requests issued, the sleeps
between consecutive requests, and the returned body. -/

/-- An HTTP response (status code and body). -/
structure HttpResponse where
  status : Nat
  body : String
deriving DecidableEq, Repr

/-- Trace of one fetch: requests issued, inter-request delays in seconds,
and the body returned (`none` = failure). -/
structure FetchTrace where
  requests : Nat
  delays : List ℚ
  result : Option String
deriving DecidableEq, Repr

/-- A URL answering `n` consecutive 503 responses followed by 200 `body`. -/
def resps503 (n : Nat) (body : String) : Nat → HttpResponse := fun i =>
  if i < n then ⟨503, ""⟩ else ⟨200, body⟩

/-- The `await asyncio.sleep` / retry loop of `BaseScraper.fetch_page`,
recursing on the remaining attempts of `range(retries)`; `attempt` is the
current attempt index. A recorded delay is the gap before the next request
(`2 ** attempt` after a 429, nothing after any other non-200 status). -/
def fetch_page_go (resps : Nat → HttpResponse) : Nat → Nat → FetchTrace
  | _, 0 => ⟨0, [], none⟩
  | attempt, fuel + 1 =>
    let r := resps attempt
    if r.status = 200 then ⟨1, [], some r.body⟩
    else
      let t := fetch_page_go resps (attempt + 1) fuel
      let gap : ℚ := if r.status = 429 then (2 : ℚ) ^ attempt else 0
      if t.requests = 0 then ⟨1, [], none⟩
      else ⟨t.requests + 1, gap :: t.delays, t.result⟩

/-- `BaseScraper.fetch_page` with its `retries` parameter (default 3). -/
def fetch_page (resps : Nat → HttpResponse) (retries : Nat) : FetchTrace :=
  fetch_page_go resps 0 retries

/-- Sleep inserted by the configured `urllib3` `Retry` before retry number
`errors` (the first retry sleeps 0, then `backoff_factor * 2 ^ (errors-1)`). -/
def urllib_backoff (backoff_factor : ℚ) (errors : Nat) : ℚ :=
  if errors ≤ 1 then 0 else backoff_factor * 2 ^ (errors - 1)

/-- The retry loop of the session built by `get_session`: request `i` is
retried while its status is in the forcelist and retries remain. -/
def session_get_go (forcelist : List Nat) (backoff_factor : ℚ)
    (resps : Nat → HttpResponse) : Nat → Nat → FetchTrace
  | i, 0 =>
    let r := resps i
    ⟨1, [], if r.status = 200 then some r.body else none⟩
  | i, rem + 1 =>
    let r := resps i
    if r.status ∈ forcelist then
      let t := session_get_go forcelist backoff_factor resps (i + 1) rem
      ⟨t.requests + 1, urllib_backoff backoff_factor (i + 1) :: t.delays,
        t.result⟩
    else ⟨1, [], if r.status = 200 then some r.body else none⟩

/-- A GET through `get_session()`'s session with the defaults of
`src/scrapers/utils.py` line 17: `retries = 3`, `backoff = 0.3`,
`status_forcelist = [500, 502, 503, 504]`. -/
def get_session_fetch (resps : Nat → HttpResponse) : FetchTrace :=
  session_get_go [500, 502, 503, 504] (3 / 10) resps 0 3

/-! ### FieldExtractionEngine: `JobProcessor` of `src/processors/pipeline2.py`.

`soup.select_one(sel)` is the oracle `soup : String → Option String`
(CSS selector ↦ stripped text of the first matching element; `some ""` is
an element that matches but has empty text). `re.search(pattern, text)` for
a pattern with one capture group is the oracle
`patMatch : String → Option String` (pattern ↦ group 1 of the match over
the page text). Keyword and city tests are plain substring checks that the
code performs on the text itself and are implemented directly. -/

/-- First selector of the list that matches, in priority order. -/
def selectFirst (soup : String → Option String) : List String → Option String
  | [] => none
  | sel :: rest =>
    match soup sel with
    | some t => some t
    | none => selectFirst soup rest

/-- First pattern of the list that matches the page text. -/
def patFirst (patMatch : String → Option String) :
    List String → Option String
  | [] => none
  | p :: rest =>
    match patMatch p with
    | some g => some g
    | none => patFirst patMatch rest

/-- Selector list of `_extract_company` (pipeline2.py lines 1195-1237). -/
def company_selectors : List String :=
  [".company-name", ".company", "[data-testid=\"company-name\"]",
   ".employer-name", ".job-company", "span.companyName"]

/-- Regex fallbacks of `_extract_company` (label to end of line, group 1). -/
def company_patterns : List String :=
  ["Company:\\s*([^\\n]+)", "Employer:\\s*([^\\n]+)",
   "Organization:\\s*([^\\n]+)"]

/-- `JobProcessor._extract_company`: selectors in order, then the labelled
patterns (the match is stripped), else the default "Unknown". -/
def extract_company (soup patMatch : String → Option String) : String :=
  match selectFirst soup company_selectors with
  | some t => t
  | none =>
    match patFirst patMatch company_patterns with
    | some g => g.trim
    | none => "Unknown"

/-- Selector list of `_extract_location` (pipeline2.py lines 1240-1272). -/
def location_selectors : List String :=
  [".location", ".job-location", "[data-testid=\"job-location\"]",
   ".workplace-location", ".job-address"]

/-- The fixed city list of `_extract_location`. -/
def kenyan_cities : List String :=
  ["Nairobi", "Mombasa", "Kisumu", "Nakuru", "Eldoret", "Thika", "Machakos"]

/-- `JobProcessor._extract_location`: selectors in order, then the first
known city occurring in the lower-cased text, else "Kenya". -/
def extract_location (soup : String → Option String) (text : String) :
    String :=
  match selectFirst soup location_selectors with
  | some t => t
  | none =>
    match kenyan_cities.find?
        (fun city => strContains (strLower text) (strLower city)) with
    | some city => city
    | none => "Kenya"

/-- The `job_types` keyword table of `_extract_job_type`
(pipeline2.py lines 1275-1300), in dict insertion order. -/
def job_types : List (String × List String) :=
  [("full-time", ["full time", "full-time", "permanent", "regular"]),
   ("part-time", ["part time", "part-time"]),
   ("contract", ["contract", "contractor", "temporary", "temp"]),
   ("internship", ["intern", "internship", "graduate program"]),
   ("remote", ["remote", "work from home", "wfh"]),
   ("freelance", ["freelance", "consultant", "independent"])]

/-- `JobProcessor._extract_job_type`: first type whose keyword occurs in the
lower-cased text, returned via Python `str.title()`, else "Full-time". -/
def extract_job_type (text : String) : String :=
  let text_lower := strLower text
  match job_types.find?
      (fun p => p.2.any (fun kw => strContains text_lower kw)) with
  | some p => pyTitle p.1
  | none => "Full-time"

/-- The `industries` keyword table of `_extract_industry`
(pipeline2.py lines 1671-1692), in dict insertion order. -/
def industries : List (String × List String) :=
  [("Technology", ["software", "tech", "it", "developer", "engineer",
      "programming"]),
   ("Finance", ["finance", "banking", "fintech", "accounting",
      "investment"]),
   ("Healthcare", ["health", "medical", "hospital", "clinical", "pharma"]),
   ("Education", ["education", "teaching", "university", "academic",
      "research"]),
   ("Marketing", ["marketing", "advertising", "digital marketing", "seo",
      "social media"]),
   ("Sales", ["sales", "business development", "account manager",
      "customer success"]),
   ("Manufacturing", ["manufacturing", "production", "factory",
      "industrial"]),
   ("Retail", ["retail", "e-commerce", "store", "merchandise"]),
   ("Consulting", ["consulting", "advisory", "strategy",
      "management consulting"])]

/-- `JobProcessor._extract_industry`: first industry with a keyword in the
lower-cased text, else "General". -/
def extract_industry (text : String) : String :=
  let text_lower := strLower text
  match industries.find?
      (fun p => p.2.any (fun kw => strContains text_lower kw)) with
  | some p => p.1
  | none => "General"

/-! ### Salary parsing: `JobProcessor._parse_salary`
(pipeline2.py lines 1404-1452). The code first strips every comma from the
text, then `re.findall(r"[\d,]+", ...)` collects the maximal digit runs. -/

/-- Structured result of `_parse_salary` (the returned dict always carries
the raw text; two numbers give a range, one an amount). -/
inductive ParsedSalary where
  | range (min max : Nat) (currency period raw : String)
  | amount (amt : Nat) (currency period raw : String)
  | rawOnly (raw : String)
deriving DecidableEq, Repr

/-- Maximal runs of decimal digits of a character list, each read as the
number Python `int` parses. -/
def digitRunsGo : List Char → Option Nat → List Nat
  | [], none => []
  | [], some n => [n]
  | c :: cs, cur =>
    if c.isDigit then
      digitRunsGo cs (some ((cur.getD 0) * 10 + (c.toNat - '0'.toNat)))
    else
      match cur with
      | some n => n :: digitRunsGo cs none
      | none => digitRunsGo cs none

/-- The numbers `re.findall(r"[\d,]+", s)` yields on comma-free text. -/
def digitRuns (s : String) : List Nat :=
  digitRunsGo s.data none

/-- `JobProcessor._parse_salary`. -/
def parse_salary (salary_text : String) : ParsedSalary :=
  let noCommas : String := ⟨salary_text.data.filter (· ≠ ',')⟩
  let numbers := digitRuns noCommas
  let lower := strLower salary_text
  let currency :=
    if charIn salary_text '$' then "USD"
    else if strContains lower "kes" then "KES"
    else "KSH"
  let period :=
    if strContains lower "year" || strContains lower "annual"
        || strContains lower "yearly" then "year"
    else "month"
  match numbers with
  | n1 :: n2 :: _ => .range n1 n2 currency period salary_text
  | [n1] => .amount n1 currency period salary_text
  | [] => .rawOnly salary_text

/-! ### Quality score: `JobProcessor._calculate_quality_score`
(pipeline2.py lines 2036-2064). The two dict arguments are modelled as
records of the fields the function reads; Python truthiness of a string or
list is non-emptiness, of the optional salary dict presence. -/

/-- The fields of `extracted_data` read by the quality score. -/
structure ExtractedData where
  title : String
  company : String
  description : String
  skills : List String
  requirements : List String
  salary : Option ParsedSalary
deriving Repr

/-- The fields of `ai_data` read by the quality score. -/
structure AiData where
  skills_analysis : List String
  key_responsibilities : List String
deriving Repr

/-- `JobProcessor._calculate_quality_score`: fixed per-field weights summed
and capped at 1 via `min(1.0, score)`. -/
def calculate_quality_score (d : ExtractedData) (a : AiData) : ℚ :=
  let score : ℚ :=
    (if d.title = "" then 0 else 2 / 10)
    + (if d.company ≠ "" ∧ d.company ≠ "Unknown" then 1 / 10 else 0)
    + (if d.description = "" then 0 else 2 / 10)
    + (if d.skills = [] then 0 else 1 / 10)
    + (if d.requirements = [] then 0 else 1 / 10)
    + (if d.salary.isSome then 1 / 10 else 0)
    + (if a.skills_analysis = [] then 0 else 1 / 10)
    + (if a.key_responsibilities = [] then 0 else 1 / 10)
  min 1 score

/-! ### RequirementsExtractor: `src/processors/educ_process.py`.

`EducationRequirement` is the pydantic model of lines 21-44 (its `level`
and `requirement_type` are `Literal` string enums, kept as strings here;
`confidence_score` is a float, kept as `ℚ`). The LangChain LLM call of
`extract_academic_details` is the oracle `chain : String → ChainResult`:
`ok` a parsed extraction, `parseError` an `OutputParserException`
(malformed AI output), `otherError` any other exception (timeout etc.). -/

/-- Pydantic model `EducationRequirement` (educ_process.py lines 21-44). -/
structure EducationRequirement where
  level : String
  field : Option String
  requirement_type : String
  years_experience_substitute : Option Int
  confidence_score : ℚ
deriving DecidableEq, Repr

/-- Pydantic model `EducationExtraction` (educ_process.py lines 46-54). -/
structure EducationExtraction where
  requirements : List EducationRequirement
  raw_text_analyzed : String
deriving DecidableEq, Repr

/-- The `field_mappings` dictionary (educ_process.py lines 140-156):
canonical field name and its synonyms. -/
def field_mappings : List (String × List String) :=
  [("computer science",
      ["cs", "computer sci", "computing", "informatics",
       "software engineering"]),
   ("information technology",
      ["it", "info tech", "information systems", "mis"]),
   ("business administration",
      ["business admin", "business", "management", "business management"]),
   ("supply chain management",
      ["supply chain", "logistics", "operations management",
       "procurement"]),
   ("mechanical engineering",
      ["mech eng", "mechanical", "mechanical tech"]),
   ("electrical engineering",
      ["ee", "electrical", "electronic engineering", "electronics"]),
   ("data science",
      ["data analytics", "analytics", "data analysis", "statistics"]),
   ("marketing",
      ["digital marketing", "marketing communications", "advertising"]),
   ("finance",
      ["financial management", "accounting and finance", "economics"]),
   ("human resources",
      ["hr", "human resource management", "people management"]),
   ("healthcare",
      ["nursing", "medical", "health sciences", "public health"]),
   ("education",
      ["teaching", "educational leadership", "curriculum"]),
   ("accounting", ["cpa", "bookkeeping", "financial accounting"]),
   ("project management", ["pmp", "program management", "operations"]),
   ("psychology", ["counseling", "behavioral science", "social work"])]

/-- `AcademicDetailsProcessor._normalize_field_name`
(educ_process.py lines 252-262): lower-case + strip, then the first
mapping whose standard name or synonym list matches; otherwise the
lower-cased, stripped original. -/
def normalize_field_name (f : String) : String :=
  let field_lower := (strLower f).trim
  match field_mappings.find?
      (fun p => field_lower = p.1 || p.2.contains field_lower) with
  | some p => p.1
  | none => field_lower

/-- The confidence clamp of `_post_process_results`
(educ_process.py lines 241-245). -/
def clampConfidence (c : ℚ) : ℚ :=
  if c > 1 then 1 else if c < 0 then 0 else c

/-- `AcademicDetailsProcessor._post_process_results`
(educ_process.py lines 232-250): per requirement, normalize a non-empty
field name (Python truthiness skips `None` and `""`) and clamp the
confidence score. -/
def post_process_results (e : EducationExtraction) : EducationExtraction :=
  { e with
    requirements := e.requirements.map (fun r =>
      { r with
        field := r.field.map
          (fun f => if f = "" then f else normalize_field_name f)
        confidence_score := clampConfidence r.confidence_score }) }

/-- Collapse every whitespace run to a single space
(`re.sub(r"\s+", " ", text)`); the Bool is "previous char was whitespace". -/
def collapseWsGo : List Char → Bool → List Char
  | [], _ => []
  | c :: cs, prevWs =>
    if c.isWhitespace then
      if prevWs then collapseWsGo cs true else ' ' :: collapseWsGo cs true
    else c :: collapseWsGo cs false

/-- `re.sub(r"\s+", " ", text)`. -/
def collapseWs (s : String) : String :=
  ⟨collapseWsGo s.data false⟩

/-- Case-insensitive: is `pat` (given lower-case) a prefix of the text? -/
def ciPrefix : List Char → List Char → Bool
  | [], _ => true
  | _ :: _, [] => false
  | p :: ps, c :: cs => (c.toLower = p) && ciPrefix ps cs

/-- The trailing `\b` of a pattern ending in `.` (a non-word character):
it holds exactly when a word character follows. -/
def boundaryAfter (rest : List Char) : Bool :=
  match rest with
  | [] => false
  | c :: _ => isWordChar c

/-- `re.sub(pat, repl, s, flags=re.IGNORECASE)` for the abbreviation
patterns `\bB\.S\.\b` etc.: `pat` is the literal text (lower-case, ending
in `.`), matched case-insensitively between a word boundary before and a
word boundary after; scanning resumes after a replacement. -/
def subAbbrevGo (pat repl : List Char) :
    Option Char → List Char → List Char
  | prev, [] =>
    let _ := prev
    []
  | prev, c :: cs =>
    if ciPrefix pat (c :: cs)
        && (match prev with | none => true | some p => !isWordChar p)
        && boundaryAfter ((c :: cs).drop pat.length) then
      repl ++ subAbbrevGo pat repl (some (pat.getLastD '.'))
        (cs.drop (pat.length - 1))
    else c :: subAbbrevGo pat repl (some c) cs
termination_by _ l => l.length
decreasing_by
  all_goals simp [List.length_drop]
  omega

/-- String wrapper for `subAbbrevGo`. -/
def subAbbrev (pat repl s : String) : String :=
  ⟨subAbbrevGo pat.data repl.data none s.data⟩

/-- `AcademicDetailsProcessor._preprocess_text`
(educ_process.py lines 218-230): collapse whitespace, normalize the degree
abbreviations, strip. -/
def preprocess_text (text : String) : String :=
  let t0 := collapseWs text
  let t1 := subAbbrev "b.s." "Bachelor" t0
  let t2 := subAbbrev "b.a." "Bachelor" t1
  let t3 := subAbbrev "m.s." "Master" t2
  let t4 := subAbbrev "m.a." "Master" t3
  let t5 := subAbbrev "ph.d." "PhD" t4
  t5.trim

/-- Outcome of running the LangChain extraction chain. -/
inductive ChainResult where
  | ok (e : EducationExtraction)
  | parseError (msg : String)
  | otherError (msg : String)

/-- `job_text[:200] + "..." if len(job_text) > 200 else job_text`. -/
def truncate200 (s : String) : String :=
  if s.length > 200 then s.take 200 ++ "..." else s

/-- `AcademicDetailsProcessor.extract_academic_details`
(educ_process.py lines 264-296): preprocess, run the chain, post-process;
an `OutputParserException` is caught and yields an empty extraction with
the truncated input text; any other exception is re-raised
(`except Exception as e: ... raise`), modelled as `Except.error`. -/
def extract_academic_details (job_text : String)
    (chain : String → ChainResult) : Except String EducationExtraction :=
  let processed := preprocess_text job_text
  match chain processed with
  | .ok r => .ok (post_process_results r)
  | .parseError _ => .ok ⟨[], truncate200 job_text⟩
  | .otherError msg => .error msg

/-! ### `AcademicDetailsProcessor` storage (`src/processors/pipeline2.py`).

`_store_job_data` (lines 617-832; the function spans a merge-conflicted
region of the file: its `try` body ends at line 726 and its
`except`/`finally` clauses — rollback, error-status update, re-raise,
close — are the orphaned lines 816-832) executes, between
`BEGIN TRANSACTION` and `commit`, one `INSERT OR REPLACE` per keyed table,
a `DELETE` + per-item `INSERT` for each of the two one-to-many tables, and
finally sets `processing_status` to `completed`. The pydantic model
classes of lines 38-176 are transcribed below; floats are `ℚ`, and the
`json.dumps` applied to list-valued columns is kept as the list value.

Transaction semantics (SQLite): statements execute against a working
state that becomes visible only at `COMMIT`; `ROLLBACK` discards it. A
failure is modelled by the index `failAt` of the statement that raises. -/

/-- Pydantic `JobClassification` (pipeline2.py lines 38-52). -/
structure JobClassification where
  category : Option String
  level : Option String
  function : Option String
  department : Option String
deriving DecidableEq, Repr

/-- Pydantic `LocationWork` (pipeline2.py lines 55-66). -/
structure LocationWork where
  office_location : Option String
  remote : Option Bool
  onsite : Option Bool
  hybrid : Option Bool
  travel_required : Option String
deriving DecidableEq, Repr

/-- Pydantic `SkillsTaxonomy` (pipeline2.py lines 69-84). -/
structure SkillsTaxonomy where
  main_skill : Option String
  technical_skills : List String
  soft_skills : List String
  tools_technologies : List String
  programming_languages : List String
  frameworks : List String
deriving DecidableEq, Repr

/-- Pydantic `Certification` (pipeline2.py lines 87-97). -/
structure Certification where
  name : Option String
  issuer : Option String
  year : Option Int
  required : Option Bool
deriving DecidableEq, Repr

/-- Pydantic `CareerProgression` (pipeline2.py lines 100-104). -/
structure CareerProgression where
  entry_level : Option String
  mid_level : Option String
  senior_level : Option String
  growth_opportunities : List String
deriving DecidableEq, Repr

/-- Pydantic `CompensationBenefits` (pipeline2.py lines 107-118). -/
structure CompensationBenefits where
  salary_min : Option ℚ
  salary_max : Option ℚ
  currency : Option String
  salary_type : Option String
  benefits : List String
deriving DecidableEq, Repr

/-- Pydantic `JobExtraction` (pipeline2.py lines 144-192). -/
structure JobExtraction where
  title_clean : Option String
  company : Option String
  company_location : Option String
  post_date : Option String
  industry : Option String
  job_type : Option String
  job_category : Option String
  job_description : Option String
  application_deadline : Option String
  additional_requirements : Option String
  full_link : Option String
  experience_required : Option String
  company_size : Option String
  job_classification : JobClassification
  location_and_work : LocationWork
  skills : SkillsTaxonomy
  certifications : List Certification
  career_progression : CareerProgression
  compensation : CompensationBenefits
  education_requirements : List EducationRequirement
  raw_text_analyzed : String
  processing_timestamp : String
deriving DecidableEq, Repr

/-- The `jobs_meta` row written by `_store_job_data` (columns of the
INSERT at pipeline2.py lines 626-638). -/
structure JobsMetaRow where
  full_link : Option String
  title_clean : Option String
  company : Option String
  company_location : Option String
  post_date : Option String
  industry : Option String
  job_type : Option String
  job_category : Option String
  job_description : Option String
  application_deadline : Option String
  additional_requirements : Option String
  experience_required : Option String
  company_size : Option String
  processing_timestamp : Option String
deriving DecidableEq, Repr

/-- The `jobs_meta` row built from a `JobExtraction`. -/
def metaRowOf (jd : JobExtraction) : JobsMetaRow :=
  ⟨jd.full_link, jd.title_clean, jd.company, jd.company_location,
   jd.post_date, jd.industry, jd.job_type, jd.job_category,
   jd.job_description, jd.application_deadline,
   jd.additional_requirements, jd.experience_required, jd.company_size,
   some jd.processing_timestamp⟩

/-- A `processing_status` row (schema at pipeline2.py lines 556-586:
`status` defaults to "pending", `retry_count` to 0). -/
structure StatusRow where
  status : String
  error_message : Option String
  retry_count : Nat
deriving DecidableEq, Repr

/-- The processed-jobs database (`db/processed_jobs.sqlite3`): one map per
table, keyed by `job_id`. -/
structure OutputDB where
  jobs_meta : Nat → Option JobsMetaRow
  job_classification : Nat → Option JobClassification
  location_work : Nat → Option LocationWork
  skills_taxonomy : Nat → Option SkillsTaxonomy
  certifications : Nat → List Certification
  career_progression : Nat → Option CareerProgression
  compensation : Nat → Option CompensationBenefits
  education_requirements : Nat → List EducationRequirement
  processing_status : Nat → Option StatusRow

/-- `INSERT OR REPLACE` into a table keyed by `job_id`. -/
def upsert (jid : Nat) (v : α) (tbl : Nat → Option α) : Nat → Option α :=
  fun j => if j = jid then some v else tbl j

/-- The statement list executed by `_store_job_data` between
`BEGIN TRANSACTION` and `commit` (pipeline2.py lines 623-723), in source
order. -/
def txStatements (jid : Nat) (jd : JobExtraction)
    (ed : EducationExtraction) : List (OutputDB → OutputDB) :=
  [fun db => { db with jobs_meta := upsert jid (metaRowOf jd) db.jobs_meta },
   fun db => { db with
     job_classification :=
       upsert jid jd.job_classification db.job_classification },
   fun db => { db with
     location_work := upsert jid jd.location_and_work db.location_work },
   fun db => { db with
     skills_taxonomy := upsert jid jd.skills db.skills_taxonomy },
   fun db => { db with
     certifications :=
       fun j => if j = jid then [] else db.certifications j }]
  ++ jd.certifications.map (fun c => fun db =>
      { db with certifications := fun j =>
          if j = jid then db.certifications jid ++ [c]
          else db.certifications j })
  ++ [fun db => { db with
        career_progression :=
          upsert jid jd.career_progression db.career_progression },
      fun db => { db with
        compensation := upsert jid jd.compensation db.compensation },
      fun db => { db with
        education_requirements :=
          fun j => if j = jid then [] else db.education_requirements j }]
  ++ ed.requirements.map (fun r => fun db =>
      { db with education_requirements := fun j =>
          if j = jid then db.education_requirements jid ++ [r]
          else db.education_requirements j })
  ++ [fun db => { db with
        processing_status :=
          upsert jid ⟨"completed", none, 0⟩ db.processing_status }]

/-- The error-status update of the `except` handler
(pipeline2.py lines 820-826): `INSERT OR REPLACE` with
`retry_count = COALESCE((SELECT retry_count ...), 0) + 1`. -/
def statusError (jid : Nat) (msg : String) (db : OutputDB) : OutputDB :=
  let oldRetry : Nat :=
    match db.processing_status jid with
    | some s => s.retry_count
    | none => 0
  { db with processing_status :=
      upsert jid ⟨"error", some msg, oldRetry + 1⟩ db.processing_status }

/-- `AcademicDetailsProcessor._store_job_data`: run the statement list in
one transaction against the working state; commit publishes it, a failure
at statement `failAt` rolls the working state back, the handler writes the
error status and the exception is re-raised (second component `true`). -/
def store_job_data (db : OutputDB) (jid : Nat) (jd : JobExtraction)
    (ed : EducationExtraction) (failAt : Option Nat) (msg : String) :
    OutputDB × Bool :=
  let stmts := txStatements jid jd ed
  match failAt with
  | none => (stmts.foldl (fun d f => f d) db, false)
  | some k =>
    if k < stmts.length then
      -- statements 0..k-1 ran against the working state, which ROLLBACK
      -- discards; the handler then updates the status row and re-raises
      let working := (stmts.take k).foldl (fun d f => f d) db
      let _ := working
      (statusError jid msg db, true)
    else (stmts.foldl (fun d f => f d) db, false)

/-! ### Retry-queue selection: `AcademicDetailsProcessor.get_unprocessed_jobs`
(pipeline2.py lines 887-940). The query joins `jobs_data` with
`processing_status` and keeps rows with no status record, status "error",
or status "pending" with `retry_count` below `max_retries`, ordered by
`jd.id`. `ORDER BY` is modelled by insertion sort on the id. -/

/-- The WHERE clause of the `get_unprocessed_jobs` query on the (left
joined) status of one job. -/
def selPred (maxRetries : Nat) : Option StatusRow → Bool
  | none => true
  | some s =>
    decide (s.status = "error")
      || (decide (s.status = "pending") && decide (s.retry_count < maxRetries))

/-- Insert a row into a list sorted by id. -/
def insertById (j : DbRow) : List DbRow → List DbRow
  | [] => [j]
  | k :: ks => if j.id ≤ k.id then j :: k :: ks else k :: insertById j ks

/-- Sort rows by id (`ORDER BY jd.id`). -/
def sortById (l : List DbRow) : List DbRow :=
  l.foldr insertById []

/-- `AcademicDetailsProcessor.get_unprocessed_jobs`: the selected
`jobs_data` rows, ordered by id. -/
def get_unprocessed_jobs (jobs : List DbRow) (ps : Nat → Option StatusRow)
    (maxRetries : Nat) : List DbRow :=
  sortById (jobs.filter (fun j => selPred maxRetries (ps j.id)))

/-- The selection the spec words describe (`selectUnprocessedOrFailed`):
no processed record, or status "error" with `retryCount < maxRetries`. -/
def selectUnprocessedOrFailed_spec (jobs : List DbRow)
    (ps : Nat → Option StatusRow) (maxRetries : Nat) : List DbRow :=
  sortById (jobs.filter (fun j =>
    match ps j.id with
    | none => true
    | some s => decide (s.status = "error") && decide (s.retry_count < maxRetries)))

/-! ### Concrete inputs used by counterexamples and witnesses -/

/-- A stored job whose processing failed five times already. -/
def exJob : DbRow := ⟨1, "link1", "title1", "content1"⟩

/-- Status table: job 1 is in status "error" with `retry_count = 5`. -/
def exStatus : Nat → Option StatusRow :=
  fun j => if j = 1 then some ⟨"error", some "boom", 5⟩ else none

/-- A page on which the selector `.company-name` matches an element whose
stripped text is empty (e.g. `<div class="company-name"></div>`). -/
def emptyCompanySoup : String → Option String :=
  fun s => if s = ".company-name" then some "" else none

/-- An empty processed-jobs database. -/
def db0 : OutputDB :=
  ⟨fun _ => none, fun _ => none, fun _ => none, fun _ => none,
   fun _ => [], fun _ => none, fun _ => none, fun _ => [], fun _ => none⟩

/-- A `JobExtraction` with every optional field empty (the pydantic
defaults). -/
def jd0 : JobExtraction :=
  ⟨none, none, none, none, none, none, none, none, none, none, none, none,
   none, ⟨none, none, none, none⟩, ⟨none, none, none, none, none⟩,
   ⟨none, [], [], [], [], []⟩, [], ⟨none, none, none, []⟩,
   ⟨none, none, none, none, []⟩, [], "", ""⟩

/-- An empty education extraction. -/
def ed0 : EducationExtraction := ⟨[], ""⟩

/-! ### C1: idempotent ingestion -/

theorem insert_or_ignore_mem_links (t : JobsTable) (ti l c : String) :
    l ∈ linksOf (insert_or_ignore t ti l c).1 := by
  unfold insert_or_ignore
  split
  · rename_i h
    simp only [List.any_eq_true, decide_eq_true_eq] at h
    obtain ⟨r, hr, he⟩ := h
    exact List.mem_map.mpr ⟨r, hr, he⟩
  · simp [linksOf, List.map_append]

theorem insert_or_ignore_links_mono (t : JobsTable) (ti l c x : String)
    (hx : x ∈ linksOf t) : x ∈ linksOf (insert_or_ignore t ti l c).1 := by
  unfold insert_or_ignore
  split
  · exact hx
  · simp only [linksOf, List.map_append]
    exact List.mem_append_left _ hx

theorem insert_or_ignore_present (t : JobsTable) (ti l c : String)
    (h : l ∈ linksOf t) : insert_or_ignore t ti l c = (t, 0) := by
  unfold insert_or_ignore
  rw [if_pos]
  simp only [List.any_eq_true, decide_eq_true_eq]
  obtain ⟨r, hr, he⟩ := List.mem_map.mp h
  exact ⟨r, hr, he⟩

theorem batch_foldl_fst (js : List JobListing) (t : JobsTable) (n : Nat) :
    (js.foldl batchStep (t, n)).1 = (batch_insert t js).1 := by
  induction js generalizing t n with
  | nil => rfl
  | cons j js ih =>
    simp only [batch_insert, List.foldl_cons, batchStep]
    rw [ih, ih]

theorem batch_foldl_snd (js : List JobListing) (t : JobsTable) (n : Nat) :
    (js.foldl batchStep (t, n)).2 = n + (batch_insert t js).2 := by
  induction js generalizing t n with
  | nil => simp [batch_insert]
  | cons j js ih =>
    simp only [batch_insert, List.foldl_cons, batchStep]
    rw [ih, ih]
    omega

theorem batch_insert_cons_fst (t : JobsTable) (j : JobListing)
    (js : List JobListing) :
    (batch_insert t (j :: js)).1
      = (batch_insert (insert_or_ignore t j.title j.full_link j.content).1
          js).1 := by
  simp only [batch_insert, List.foldl_cons, batchStep]
  rw [batch_foldl_fst js _ _]
  rfl

theorem batch_insert_links_mono (js : List JobListing) (t : JobsTable)
    (x : String) (hx : x ∈ linksOf t) :
    x ∈ linksOf (batch_insert t js).1 := by
  induction js generalizing t with
  | nil => exact hx
  | cons j js ih =>
    rw [batch_insert_cons_fst]
    exact ih _ (insert_or_ignore_links_mono _ _ _ _ _ hx)

theorem batch_insert_mem_own (js : List JobListing) (t : JobsTable)
    (j : JobListing) (hj : j ∈ js) :
    j.full_link ∈ linksOf (batch_insert t js).1 := by
  induction js generalizing t with
  | nil => cases hj
  | cons k ks ih =>
    rw [batch_insert_cons_fst]
    rcases List.mem_cons.mp hj with hj1 | hj1
    · subst hj1
      exact batch_insert_links_mono _ _ _
        (insert_or_ignore_mem_links t j.title j.full_link j.content)
    · exact ih _ hj1

theorem batch_insert_all_present_fst (js : List JobListing) (t : JobsTable)
    (h : ∀ j ∈ js, j.full_link ∈ linksOf t) :
    (batch_insert t js).1 = t := by
  induction js generalizing t with
  | nil => rfl
  | cons j js ih =>
    rw [batch_insert_cons_fst,
      insert_or_ignore_present t j.title j.full_link j.content
        (h j (List.mem_cons_self _ _))]
    exact ih t (fun k hk => h k (List.mem_cons_of_mem _ hk))

theorem batch_insert_all_present_snd (js : List JobListing) (t : JobsTable)
    (h : ∀ j ∈ js, j.full_link ∈ linksOf t) :
    (batch_insert t js).2 = 0 := by
  induction js generalizing t with
  | nil => rfl
  | cons j js ih =>
    simp only [batch_insert, List.foldl_cons, batchStep]
    rw [batch_foldl_snd,
      insert_or_ignore_present t j.title j.full_link j.content
        (h j (List.mem_cons_self _ _))]
    simp only [Nat.zero_add]
    exact ih t (fun k hk => h k (List.mem_cons_of_mem _ hk))

theorem insert_or_ignore_nodup (t : JobsTable) (ti l c : String)
    (h : (linksOf t).Nodup) :
    (linksOf (insert_or_ignore t ti l c).1).Nodup := by
  unfold insert_or_ignore
  split
  · exact h
  · rename_i hn
    simp only [List.any_eq_true, decide_eq_true_eq] at hn
    push_neg at hn
    simp only [linksOf, List.map_append, List.map_cons, List.map_nil]
    rw [List.nodup_append]
    refine ⟨h, List.nodup_singleton _, ?_⟩
    intro x hx hx1
    obtain ⟨r, hr, he⟩ := List.mem_map.mp hx
    simp only [List.mem_singleton] at hx1
    exact hn r hr (he.trans hx1)

theorem batch_insert_nodup (js : List JobListing) (t : JobsTable)
    (h : (linksOf t).Nodup) : (linksOf (batch_insert t js).1).Nodup := by
  induction js generalizing t with
  | nil => exact h
  | cons j js ih =>
    rw [batch_insert_cons_fst]
    exact ih _ (insert_or_ignore_nodup _ _ _ _ h)

/-- C1. Idempotent ingestion: a second `batch_insert` of the same rows is a
no-op — it returns the table unchanged with an inserted count of 0 — and
`batch_insert` preserves the one-row-per-`full_link` invariant of the
UNIQUE column, so storage holds exactly one row per distinct canonical
URL. -/
theorem batch_insert_idempotent (t : JobsTable) (jobs : List JobListing) :
    batch_insert (batch_insert t jobs).1 jobs = ((batch_insert t jobs).1, 0)
    ∧ ((linksOf t).Nodup → (linksOf (batch_insert t jobs).1).Nodup) := by
  have hall : ∀ j ∈ jobs, j.full_link ∈ linksOf (batch_insert t jobs).1 :=
    fun j hj => batch_insert_mem_own jobs t j hj
  constructor
  · rw [Prod.ext_iff]
    exact ⟨batch_insert_all_present_fst jobs _ hall,
      batch_insert_all_present_snd jobs _ hall⟩
  · exact batch_insert_nodup jobs t

/-! ### C2: per-record transaction atomicity -/

/-- C2. Atomicity of `_store_job_data`: with no failure, all statements of
the record (`jobs_meta`, classification, location, skills, certifications,
career progression, compensation, education requirements, completed
status) are published by the single commit; if the statement at any index
`k` of the transaction fails, the write is rolled back — every table of
the resulting database except `processing_status` equals the original, the
`processing_status` row of the job becomes "error" with its retry count
incremented by one (COALESCE of the previous count with 0, plus 1), no
other job's status row changes, and the exception is re-raised. -/
theorem store_job_data_transactional (db : OutputDB) (jid : Nat)
    (jd : JobExtraction) (ed : EducationExtraction) (msg : String)
    (k : Nat) (hk : k < (txStatements jid jd ed).length) :
    store_job_data db jid jd ed (some k) msg = (statusError jid msg db, true)
    ∧ (statusError jid msg db).jobs_meta = db.jobs_meta
    ∧ (statusError jid msg db).job_classification = db.job_classification
    ∧ (statusError jid msg db).location_work = db.location_work
    ∧ (statusError jid msg db).skills_taxonomy = db.skills_taxonomy
    ∧ (statusError jid msg db).certifications = db.certifications
    ∧ (statusError jid msg db).career_progression = db.career_progression
    ∧ (statusError jid msg db).compensation = db.compensation
    ∧ (statusError jid msg db).education_requirements
        = db.education_requirements
    ∧ (statusError jid msg db).processing_status jid
        = some ⟨"error", some msg,
            (match db.processing_status jid with
             | some s => s.retry_count
             | none => 0) + 1⟩
    ∧ (∀ j : Nat, j = jid
        ∨ (statusError jid msg db).processing_status j
            = db.processing_status j)
    ∧ store_job_data db jid jd ed none msg
        = ((txStatements jid jd ed).foldl (fun d f => f d) db, false) := by
  refine ⟨?_, rfl, rfl, rfl, rfl, rfl, rfl, rfl, rfl, ?_, ?_, rfl⟩
  · simp only [store_job_data]
    rw [if_pos hk]
  · simp [statusError, upsert]
  · intro j
    by_cases hj : j = jid
    · exact Or.inl hj
    · right
      simp [statusError, upsert, hj]

/-- Witness for C2: the failure branch of `store_job_data` at the first
statement of a nonempty transaction, over the empty database and the empty
extraction. -/
theorem store_job_data_transactional_witness :
    store_job_data db0 1 jd0 ed0 (some 0) "boom"
      = (statusError 1 "boom" db0, true) :=
  (store_job_data_transactional db0 1 jd0 ed0 "boom" 0
    (by norm_num [txStatements, jd0, ed0])).1

/-! ### C3: quality score bounds -/

/-- C3. `_calculate_quality_score` is the sum of the fixed per-field
weights of the present indicators capped at 1, hence always in [0, 1], and
an input with every indicator absent scores exactly 0. -/
theorem calculate_quality_score_bounds :
    (∀ (d : ExtractedData) (a : AiData),
      0 ≤ calculate_quality_score d a ∧ calculate_quality_score d a ≤ 1)
    ∧ calculate_quality_score ⟨"", "", "", [], [], none⟩ ⟨[], []⟩ = 0 := by
  constructor
  · intro d a
    unfold calculate_quality_score
    constructor
    · refine le_min (by norm_num) ?_
      repeat' apply add_nonneg
      all_goals split <;> norm_num
    · exact min_le_left _ _
  · norm_num [calculate_quality_score]

/-! ### C4: retry/backoff of the fetch layer -/

/-- C4 counterexample: at `N = 3` (the configured max retries), three 503
responses followed by a 200 make `fetch_page` issue only 3 requests — it
never reaches the 200 and returns `None` rather than the body — and the
gaps between its attempts are 0 and 0, not strictly increasing (the loop
sleeps only for HTTP 429 or an exception, never for a 5xx status). The
claim requires 4 requests, strictly increasing delays and the 200 body. -/
theorem fetch_page_counterexample :
    fetch_page (resps503 3 "ok") 3 = ⟨3, [0, 0], none⟩ := by decide

/-- C4 amended. The `requests` session of `get_session` (retrying
500/502/503/504 up to its default 3 retries with backoff factor 0.3) does
issue exactly N+1 requests with strictly increasing inter-attempt delays
and return the 200 body, for every N ≤ 3; the repository's own retry loop
`BaseScraper.fetch_page` issues N+1 requests and returns the body only for
N strictly below its max retries, and inserts no delay at all between 5xx
attempts. -/
theorem fetch_retry_amended (n : Nat) (body : String) (hn : n ≤ 3) :
    (get_session_fetch (resps503 n body)).requests = n + 1
    ∧ (get_session_fetch (resps503 n body)).result = some body
    ∧ List.Chain' (· < ·) (get_session_fetch (resps503 n body)).delays
    ∧ (n < 3 →
        fetch_page (resps503 n body) 3
          = ⟨n + 1, List.replicate n 0, some body⟩) := by
  interval_cases n
  · have h : get_session_fetch (resps503 0 body) = ⟨1, [], some body⟩ := rfl
    exact ⟨by rw [h], by rw [h], by rw [h]; exact List.chain'_nil,
      fun _ => rfl⟩
  · have h : get_session_fetch (resps503 1 body)
        = ⟨2, [urllib_backoff (3 / 10) 1], some body⟩ := rfl
    exact ⟨by rw [h], by rw [h], by rw [h]; exact List.chain'_singleton _,
      fun _ => rfl⟩
  · have h : get_session_fetch (resps503 2 body)
        = ⟨3, [urllib_backoff (3 / 10) 1, urllib_backoff (3 / 10) 2],
           some body⟩ := rfl
    refine ⟨by rw [h], by rw [h], ?_, fun _ => rfl⟩
    rw [h]
    norm_num [urllib_backoff, List.chain'_cons, List.chain'_singleton]
  · have h : get_session_fetch (resps503 3 body)
        = ⟨4, [urllib_backoff (3 / 10) 1, urllib_backoff (3 / 10) 2,
               urllib_backoff (3 / 10) 3], some body⟩ := rfl
    refine ⟨by rw [h], by rw [h], ?_, fun h3 => absurd h3 (by omega)⟩
    rw [h]
    norm_num [urllib_backoff, List.chain'_cons, List.chain'_singleton]

/-- Witness for C4 (amended): the session layer and `fetch_page` at
`N = 2 < 3` consecutive 503 responses. -/
theorem fetch_retry_amended_witness :
    (get_session_fetch (resps503 2 "ok")).requests = 2 + 1
    ∧ (get_session_fetch (resps503 2 "ok")).result = some "ok"
    ∧ List.Chain' (· < ·) (get_session_fetch (resps503 2 "ok")).delays
    ∧ (2 < 3 →
        fetch_page (resps503 2 "ok") 3
          = ⟨2 + 1, List.replicate 2 0, some "ok"⟩) :=
  fetch_retry_amended 2 "ok" (by norm_num)

/-! ### C5: pagination termination -/

theorem scrapePageStep_fst (fl : Nat → List JobListing)
    (fc : String → Option String) (bs : Nat) (acc : Nat × JobsTable)
    (page : Nat) : (scrapePageStep fl fc bs acc page).1 = acc.1 + 1 := by
  simp only [scrapePageStep]
  split <;> rfl

theorem scrape_foldl_fst (fl : Nat → List JobListing)
    (fc : String → Option String) (bs : Nat) (pages : List Nat)
    (p : Nat) (d : JobsTable) :
    (pages.foldl (scrapePageStep fl fc bs) (p, d)).1 = p + pages.length := by
  induction pages generalizing p d with
  | nil => rfl
  | cons q qs ih =>
    rw [List.foldl_cons]
    have h2 : scrapePageStep fl fc bs (p, d) q
        = (p + 1, (scrapePageStep fl fc bs (p, d) q).2) := by
      rw [Prod.ext_iff]
      exact ⟨scrapePageStep_fst fl fc bs (p, d) q, rfl⟩
    rw [h2, ih, List.length_cons]
    omega

/-- C5 counterexample: against a mocked source whose page 1 yields 10
listings and whose pages 2, 3, ... yield 0 listings, `scrape` over the
page range 1..5 fetches all 5 listing pages — an empty page is logged and
skipped, not a stopping condition — where the claim says scraping stops
after page 2. -/
theorem scrape_counterexample :
    (scrape mockListings mockContent 1 5 20 emptyTable).1 = 5 := by decide

/-- C5 amended. `JobScraper.scrape` fetches every page of
`start_page .. end_page` regardless of content — exactly
`end_page + 1 - start_page` listing-page fetches — treating an empty page
as skip-and-continue rather than a stopping condition; the mocked
two-page source (10 stubs then none) still stores exactly 10 listing
stubs, because later empty pages insert nothing. -/
theorem scrape_amended :
    (∀ (fl : Nat → List JobListing) (fc : String → Option String)
       (s e bs : Nat) (db : JobsTable),
      (scrape fl fc s e bs db).1 = e + 1 - s)
    ∧ (scrape mockListings mockContent 1 5 20 emptyTable).2.rows.length
        = 10 := by
  constructor
  · intro fl fc s e bs db
    unfold scrape
    rw [scrape_foldl_fst, List.length_range']
    omega
  · decide

/-! ### C6: retry-queue selection policy -/

theorem mem_insertById (a j : DbRow) (l : List DbRow) :
    a ∈ insertById j l ↔ a = j ∨ a ∈ l := by
  induction l with
  | nil => simp [insertById]
  | cons k ks ih =>
    unfold insertById
    split
    · simp [List.mem_cons]
    · simp only [List.mem_cons, ih]
      tauto

theorem mem_sortById (a : DbRow) (l : List DbRow) :
    a ∈ sortById l ↔ a ∈ l := by
  induction l with
  | nil => simp [sortById]
  | cons k ks ih =>
    show a ∈ insertById k (sortById ks) ↔ _
    rw [mem_insertById, ih, List.mem_cons]

theorem pairwise_insertById (j : DbRow) (l : List DbRow)
    (h : l.Pairwise (fun a b => a.id ≤ b.id)) :
    (insertById j l).Pairwise (fun a b => a.id ≤ b.id) := by
  induction l with
  | nil => simp [insertById]
  | cons k ks ih =>
    obtain ⟨hk, hks⟩ := List.pairwise_cons.mp h
    unfold insertById
    split
    · rename_i hle
      refine List.pairwise_cons.mpr ⟨?_, h⟩
      intro x hx
      rcases List.mem_cons.mp hx with hx | hx
      · exact hx ▸ hle
      · exact le_trans hle (hk x hx)
    · rename_i hgt
      refine List.pairwise_cons.mpr ⟨?_, ih hks⟩
      intro x hx
      rcases (mem_insertById x j ks).mp hx with hx | hx
      · subst hx
        omega
      · exact hk x hx

theorem sorted_sortById (l : List DbRow) :
    (sortById l).Pairwise (fun a b => a.id ≤ b.id) := by
  induction l with
  | nil => simp [sortById]
  | cons k ks ih => exact pairwise_insertById k (sortById ks) ih

/-- C6 counterexample: with one stored job whose processing status is
"error" with `retry_count = 5` and `maxRetries = 3`, the query of
`get_unprocessed_jobs` still returns the job (its WHERE clause keeps every
"error" row regardless of retry count), while the claimed selection —
no record, or "error" with retry count strictly below `maxRetries` —
returns nothing. -/
theorem get_unprocessed_jobs_counterexample :
    get_unprocessed_jobs [exJob] exStatus 3 = [exJob]
    ∧ selectUnprocessedOrFailed_spec [exJob] exStatus 3 = [] := by decide

/-- C6 amended. `get_unprocessed_jobs` returns exactly the jobs with no
processing-status record, or status "error" (regardless of retry count),
or status "pending" with retry count strictly below `maxRetries`, ordered
by the original job id. -/
theorem get_unprocessed_jobs_amended (jobs : List DbRow)
    (ps : Nat → Option StatusRow) (maxRetries : Nat) :
    (∀ j : DbRow,
      j ∈ get_unprocessed_jobs jobs ps maxRetries ↔
        j ∈ jobs ∧
          (ps j.id = none
            ∨ ∃ s : StatusRow, ps j.id = some s ∧
                (s.status = "error"
                  ∨ (s.status = "pending" ∧ s.retry_count < maxRetries))))
    ∧ (get_unprocessed_jobs jobs ps maxRetries).Pairwise
        (fun a b => a.id ≤ b.id) := by
  constructor
  · intro j
    rw [get_unprocessed_jobs, mem_sortById, List.mem_filter]
    rcases hps : ps j.id with _ | s
    · simp [selPred, hps]
    · simp only [selPred, hps, Bool.or_eq_true, Bool.and_eq_true,
        decide_eq_true_eq, Option.some.injEq]
      constructor
      · rintro ⟨hmem, hsel⟩
        exact ⟨hmem, Or.inr ⟨s, rfl, hsel⟩⟩
      · rintro ⟨hmem, hcase⟩
        rcases hcase with hnone | ⟨s2, hs2, hsel⟩
        · cases hnone
        · cases hs2
          exact ⟨hmem, hsel⟩
  · exact sorted_sortById _

/-! ### C7: salary parsing -/

/-- C7. `_parse_salary` on the spec's inputs: a two-number KES snippet
gives the {min, max} range with currency "KES" and period "month"; a
one-number dollar snippet gives {amount} with currency "USD" and period
"year" (the year keyword is present); a bare range with neither symbol
nor keyword falls back to the local default currency "KSH" and the
default period "month". -/
theorem parse_salary_spec :
    parse_salary "KES 80,000 - 120,000 per month"
      = ParsedSalary.range 80000 120000 "KES" "month"
          "KES 80,000 - 120,000 per month"
    ∧ parse_salary "$95,000 per year"
      = ParsedSalary.amount 95000 "USD" "year" "$95,000 per year"
    ∧ parse_salary "50000 - 70000"
      = ParsedSalary.range 50000 70000 "KSH" "month" "50000 - 70000" :=
  ⟨by decide, by decide, by decide⟩

/-! ### C8: requirements-extractor failure containment -/

/-- C8 counterexample: when the extraction chain fails with anything other
than an `OutputParserException` — here a timeout — `extract_academic_details`
re-raises (`except Exception as e: ... raise`) instead of returning an
empty extraction, so the exception does cross this boundary to the
caller. -/
theorem extract_academic_details_counterexample :
    extract_academic_details "job text"
        (fun _ => ChainResult.otherError "timeout")
      = Except.error "timeout" := rfl

/-- C8 amended. `extract_academic_details` returns the post-processed
extraction on success; on a parse failure (malformed AI output) it
contains the error, returning an extraction with an empty requirements
list and the input text preserved in `raw_text_analyzed` truncated to 200
characters (with "..." appended when longer); any other exception — e.g.
a timeout — propagates to the caller. -/
theorem extract_academic_details_amended (text msg : String)
    (e : EducationExtraction) :
    extract_academic_details text (fun _ => ChainResult.ok e)
      = Except.ok (post_process_results e)
    ∧ extract_academic_details text (fun _ => ChainResult.parseError msg)
      = Except.ok ⟨[], truncate200 text⟩
    ∧ extract_academic_details text (fun _ => ChainResult.otherError msg)
      = Except.error msg :=
  ⟨rfl, rfl, rfl⟩

/-! ### C9: confidence clamping -/

/-- C9. The normalizer `_post_process_results` maps each confidence score
through the clamp `if c > 1 then 1 else if c < 0 then 0 else c` — above
1.0 becomes exactly 1.0, below 0.0 becomes exactly 0.0, scores already in
[0, 1] are unchanged — and every output confidence score lies in [0, 1]. -/
theorem post_process_confidence_clamped (e : EducationExtraction) :
    ((post_process_results e).requirements.map (·.confidence_score))
      = e.requirements.map (fun r =>
          if r.confidence_score > 1 then 1
          else if r.confidence_score < 0 then 0
          else r.confidence_score)
    ∧ ((post_process_results e).requirements.all
        (fun r => decide (0 ≤ r.confidence_score)
          && decide (r.confidence_score ≤ 1))) = true := by
  constructor
  · simp only [post_process_results, List.map_map]
    rfl
  · rw [List.all_eq_true]
    intro r hr
    simp only [post_process_results, List.mem_map] at hr
    obtain ⟨q, hq, rfl⟩ := hr
    simp only [Bool.and_eq_true, decide_eq_true_eq]
    constructor
    · show 0 ≤ clampConfidence q.confidence_score
      unfold clampConfidence
      split
      · norm_num
      · split
        · norm_num
        · rename_i h1 h2
          linarith [not_lt.mp h2]
    · show clampConfidence q.confidence_score ≤ 1
      unfold clampConfidence
      split
      · norm_num
      · split
        · norm_num
        · rename_i h1 h2
          linarith [not_lt.mp h1]

/-! ### C10: extractor fallback defaults -/

/-- C10 counterexample: on a page whose `.company-name` selector matches
an element with empty stripped text (e.g. `<div class="company-name"></div>`),
`_extract_company` returns that empty text — the empty string — so the
extractors do not always return a non-empty string. -/
theorem extract_company_counterexample :
    extract_company emptyCompanySoup (fun _ => none) = "" := by decide

/-- C10 amended. The four extractors are total (a string always comes
back) and fall back to the fixed defaults "Unknown", "Kenya", "Full-time"
and "General" when no selector, pattern or keyword matches; the job-type
and industry results are always non-empty, but company (and likewise
location) can be the empty string when a matched selector's element text
is empty. -/
theorem extractors_defaults :
    extract_company (fun _ => none) (fun _ => none) = "Unknown"
    ∧ extract_location (fun _ => none) "" = "Kenya"
    ∧ extract_job_type "" = "Full-time"
    ∧ extract_industry "" = "General"
    ∧ (∀ text : String, (extract_job_type text).isEmpty = false
        ∧ (extract_industry text).isEmpty = false) := by
  refine ⟨by decide, by decide, by decide, by decide, ?_⟩
  intro text
  constructor
  · simp only [extract_job_type]
    rcases hf : job_types.find?
        (fun p => p.2.any (fun kw => strContains (strLower text) kw))
      with _ | p
    · rw [hf]
      decide
    · rw [hf]
      have hall : ∀ q ∈ job_types, (pyTitle q.1).isEmpty = false := by
        decide
      exact hall p (List.mem_of_find?_eq_some hf)
  · simp only [extract_industry]
    rcases hf : industries.find?
        (fun p => p.2.any (fun kw => strContains (strLower text) kw))
      with _ | p
    · rw [hf]
      decide
    · rw [hf]
      have hall : ∀ q ∈ industries, q.1.isEmpty = false := by decide
      exact hall p (List.mem_of_find?_eq_some hf)
